import Mathlib

/-
Verification of the MuggingAI (MindCrush) ingestion-and-retrieval core and
its React frontend against the natural-language specification.

The repository sources under study are the frontend TypeScript files
(frontend/src/lib/api.ts, frontend/src/lib/rag-api.ts,
frontend/src/components/FileUpload.tsx,
frontend/src/components/SuggestedFollowUps.tsx, the Chat components) together
with the project documentation.  The Python backend (chunker service, vector
store, RAG orchestrator, ingestion job worker) is not part of the source
drop; the definitions below that concern it are marked
"Modelled from the spec:" and follow the specification text (sections 4.2,
4.3, 4.4, 4.5, 4.6) and the documented configuration
(CHUNK_SIZE=1000, CHUNK_OVERLAP=200, MAX_FILE_SIZE=52428800).

JavaScript string primitives (split, toLowerCase, trim) are embedded as
structural functions over the underlying character lists so that every
definition is executable by the kernel.
-/

/-- Embedding of the JavaScript string split with a one-character separator:
name.split(sep).  Splitting the empty string yields one empty group, and a
trailing separator yields a trailing empty group, exactly as in JavaScript. -/
def jsSplit (sep : Char) : List Char → List (List Char)
  | [] => [[]]
  | c :: cs =>
    match jsSplit sep cs with
    | [] => [[]]
    | g :: gs => if c = sep then [] :: g :: gs else (c :: g) :: gs

/-- Embedding of the JavaScript toLowerCase over the character list. -/
def jsToLower (s : String) : String :=
  String.mk (s.data.map Char.toLower)

/-- Embedding of the JavaScript trim: drop whitespace from both ends. -/
def jsTrim (s : String) : String :=
  String.mk (((s.data.dropWhile Char.isWhitespace).reverse.dropWhile
    Char.isWhitespace).reverse)

/-- Final dot-separated token of a name: name.split(".").pop(). For a
dotless name the single group is the whole name. -/
def lastDotToken (name : String) : String :=
  String.mk ((jsSplit '.' name.data).getLastD [])

/-- Configured maximum chunk size in words (CHUNK_SIZE=1000 in the
documented backend environment). -/
def max_chunk_words : Nat := 1000

/-- Configured overlap between consecutive chunks in words
(CHUNK_OVERLAP=200 in the documented backend environment). -/
def overlap_words : Nat := 200

/-- Modelled from the spec: the backend Chunker service (section 4.3),
absent from the source drop.  Greedy word-window slicing: emit a window of
max_chunk_words words, step forward by max_chunk_words - overlap_words so
that consecutive windows share overlap_words words, and stop once the rest
fits in one window.  The fuel argument makes the recursion structural; it
is initialised with the word count, which always suffices. -/
def chunkWordsAux : Nat → List String → List (List String)
  | 0, ws => [ws]
  | fuel + 1, ws =>
    if ws.length ≤ max_chunk_words then [ws]
    else ws.take max_chunk_words ::
      chunkWordsAux fuel (ws.drop (max_chunk_words - overlap_words))

/-- Modelled from the spec: chunk(chapter words) for the configured
window and overlap. -/
def chunkWords (ws : List String) : List (List String) :=
  chunkWordsAux ws.length ws

/-- Modelled from the spec: the ChapterDetector heuristic (section 4.2),
absent from the source drop; a heading-like line is one that starts with
the literal "Chapter ". -/
def isHeadingLine (line : String) : Bool :=
  "Chapter ".data.isPrefixOf line.data

/-- Modelled from the spec: grouping of lines into (title, body) spans at
heading lines, fuel-structural on the line count. -/
def chapterSplitAux : Nat → List String → List (String × List String)
  | 0, _ => []
  | _ + 1, [] => []
  | fuel + 1, l :: ls =>
    if isHeadingLine l then
      (l, ls.takeWhile (fun x => !isHeadingLine x)) ::
        chapterSplitAux fuel (ls.dropWhile (fun x => !isHeadingLine x))
    else chapterSplitAux fuel ls

/-- Modelled from the spec: chapter spans of a line list. -/
def chapterSplit (lines : List String) : List (String × List String) :=
  chapterSplitAux lines.length lines

/-- Modelled from the spec: detect(full_text).  If no heading-like line is
found the entire document becomes one chapter titled with the document
name (section 4.2: "Untitled" or the document name). -/
def detectChapters (docName : String) (lines : List String) :
    List (String × List String) :=
  if lines.any isHeadingLine then chapterSplit lines
  else [(docName, lines)]

/-- Modelled from the spec: the word list of a chapter body, split on
spaces with empty tokens removed. -/
def wordsOf (lines : List String) : List String :=
  lines.flatMap (fun l => ((jsSplit ' ' l.data).map String.mk).filter
    (fun w => w ≠ ""))

/-- One uploaded document as the ingestion pipeline sees it: id, name and
extracted text lines. -/
structure Document where
  id : Nat
  name : String
  lines : List String
deriving DecidableEq

/-- Modelled from the spec: chunk id as a deterministic hash of
(document id, chapter ordinal, chunk ordinal) (section 4.3), embedded as
the injective Cantor pairing. -/
def chunkId (docId chapOrd chunkOrd : Nat) : Nat :=
  Nat.pair docId (Nat.pair chapOrd chunkOrd)

/-- Modelled from the spec: the ingestion pipeline
extract -> detect -> chunk with id assignment.  The result lists, per
chapter in order, the chapter title and the identified chunks. -/
def ingest (d : Document) : List (String × List (Nat × List String)) :=
  (detectChapters d.name d.lines).enum.map (fun p =>
    (p.2.1, (chunkWords (wordsOf p.2.2)).enum.map
      (fun q => (chunkId d.id p.1 q.1, q.2))))

/-- Chunk id multiset produced by ingesting a document. -/
def ingestChunkIds (d : Document) : List Nat :=
  (ingest d).flatMap (fun ch => ch.2.map (fun c => c.1))

/-- Chapter titles produced by ingesting a document. -/
def ingestChapterTitles (d : Document) : List String :=
  (ingest d).map (fun ch => ch.1)

/-- Modelled from the spec: the vector-store-resident projection of a
chunk (section 3, IndexEntry): chunk id plus filterable metadata and the
similarity score of the entry against the current query. -/
structure IndexEntry where
  chunkId : Nat
  courseId : Nat
  documentId : Nat
  chapter : String
  score : Int
deriving DecidableEq

/-- Modelled from the spec: the metadata filter of EmbeddingIndex.search;
a course filter keeps exactly the entries of that course. -/
def matchesFilter (filter : Option Nat) (e : IndexEntry) : Bool :=
  match filter with
  | none => true
  | some c => e.courseId == c

/-- Insertion step of the descending-by-score ordering. -/
def insertByScore (e : IndexEntry) : List IndexEntry → List IndexEntry
  | [] => [e]
  | a :: as => if a.score ≤ e.score then e :: a :: as else a :: insertByScore e as

/-- Modelled from the spec: ranking of candidates by descending
similarity score (insertion sort, stable). -/
def sortByScoreDesc : List IndexEntry → List IndexEntry
  | [] => []
  | a :: as => insertByScore a (sortByScoreDesc as)

/-- Modelled from the spec: EmbeddingIndex.search (section 4.4).  The
filter is applied as a hard constraint BEFORE ranking: only matching
entries are sorted and truncated to top_k. -/
def searchIndex (entries : List IndexEntry) (top_k : Nat)
    (filter : Option Nat) : List IndexEntry :=
  (sortByScoreDesc (entries.filter (matchesFilter filter))).take top_k

/-- One source of a RAG query response, mirroring the RAGSource interface
of frontend/src/lib/rag-api.ts; chapter_title is the extra key read
dynamically by handleSendMessage in the chat component. -/
structure RAGSource where
  chapter : Option String
  chapter_title : Option String
  relevance : Option Int
  content_preview : Option String
  id : Option Nat
  content : Option String
deriving DecidableEq

/-- A RAG query response, mirroring the RAGResult interface of
frontend/src/lib/rag-api.ts. -/
structure RAGResult where
  query : String
  answer : String
  sources : List RAGSource
  source_count : Nat
  follow_up_questions : Option (List String)
  error : Option String
deriving DecidableEq

/-- Modelled from the spec: extraction of follow-up questions from the
structured trailer of a completion (section 4.5 step 5): always attempt to
extract 2 to 4 questions, defaulting to the empty list when the trailer is
absent or malformed. -/
def extractFollowUps (trailer : Option (List String)) : List String :=
  match trailer with
  | none => []
  | some qs => if 2 ≤ qs.length ∧ qs.length ≤ 4 then qs else []

/-- Modelled from the spec: the deterministic answer used when retrieval
finds zero candidates (section 4.5 step 6). -/
def noRelevantContentAnswer : String :=
  "No relevant content found for your query."

/-- Modelled from the spec: prompt assembly (section 4.5 step 4), the
query followed by the chapter-annotated candidate material. -/
def buildPrompt (q : String) (candidates : List IndexEntry) : String :=
  (candidates.map (fun e => e.chapter)).foldl (fun acc c => acc ++ " " ++ c) q

/-- Modelled from the spec: projection of a retrieved index entry to a
response source. -/
def toRAGSource (e : IndexEntry) : RAGSource :=
  { chapter := some e.chapter
    chapter_title := none
    relevance := some e.score
    content_preview := none
    id := some e.chunkId
    content := none }

/-- Modelled from the spec: RetrievalOrchestrator.answer (section 4.5).
The second component of the result records whether the external completion
collaborator was invoked.  With zero candidates the orchestrator
short-circuits to the deterministic no-content answer without calling the
completion collaborator and without an error. -/
def answerQuery (q : String) (candidates : List IndexEntry)
    (complete : String → String)
    (parseTrailer : String → Option (List String)) : RAGResult × Bool :=
  if candidates.isEmpty then
    ({ query := q
       answer := noRelevantContentAnswer
       sources := []
       source_count := 0
       follow_up_questions := none
       error := none }, false)
  else
    let text := complete (buildPrompt q candidates)
    ({ query := q
       answer := text
       sources := candidates.map toRAGSource
       source_count := candidates.length
       follow_up_questions := some (extractFollowUps (parseTrailer text))
       error := none }, true)

/-- Modelled from the spec: the four ingestion job states of
IngestionJobTracker (section 4.6). -/
inductive JobStatus where
  | QUEUED
  | PROCESSING
  | SUCCESS
  | FAILURE
deriving DecidableEq

/-- Modelled from the spec: the transition relation of the ingestion job
state machine QUEUED -> PROCESSING -> SUCCESS or FAILURE. -/
inductive JobStep : JobStatus → JobStatus → Prop where
  | start : JobStep JobStatus.QUEUED JobStatus.PROCESSING
  | succeed : JobStep JobStatus.PROCESSING JobStatus.SUCCESS
  | fail : JobStep JobStatus.PROCESSING JobStatus.FAILURE

/-- Ingestion statistics, mirroring FileUploadStatusResult.statistics in
frontend/src/lib/api.ts. -/
structure UploadStatistics where
  total_chunks : Nat
  total_words : Nat
  average_chunk_size : Nat
  unique_chapters : Nat
  chapters : List String
deriving DecidableEq

/-- One chunk summary, mirroring FileUploadStatusResult.summaries entries
in frontend/src/lib/api.ts. -/
structure ChunkSummary where
  chunk_index : Option Nat
  file_id : Option Nat
  summary : String
deriving DecidableEq

/-- Terminal result of an ingestion job, mirroring FileUploadStatusResult
in frontend/src/lib/api.ts. -/
structure FileUploadStatusResult where
  file_id : Option Nat
  filename : Option String
  file_size : Option Nat
  chunks_created : Option Nat
  statistics : Option UploadStatistics
  summaries : Option (List ChunkSummary)
deriving DecidableEq

/-- Polled job status payload, mirroring FileUploadStatusResponse in
frontend/src/lib/api.ts; the status field is the raw string sent by the
backend. -/
structure FileUploadStatusResponse where
  job_id : String
  status : String
  progress_messages : List String
  result : Option FileUploadStatusResult
deriving DecidableEq

/-- The component state touched by the polling effect of
frontend/src/components/FileUpload.tsx. -/
structure UploadComponentState where
  jobStatus : Option FileUploadStatusResponse
  polling : Bool
  isUploading : Bool
  uploadResult : Option FileUploadStatusResult
  error : String
deriving DecidableEq

/-- One tick of the polling effect of FileUpload.tsx (lines 133-153):
store the polled status; when it is SUCCESS or FAILURE stop polling, clear
the uploading flag and surface the result; when it is FAILURE also set the
error message. -/
def pollTick (s : UploadComponentState) (st : FileUploadStatusResponse) :
    UploadComponentState :=
  let s1 := { s with jobStatus := some st }
  let s2 :=
    if st.status == "SUCCESS" || st.status == "FAILURE" then
      { s1 with
        polling := false
        isUploading := false
        uploadResult := st.result }
    else s1
  if st.status == "FAILURE" then { s2 with error := "Upload failed" } else s2

/-- Embedding of the JavaScript truthiness fallback a || b on strings:
undefined and the empty string fall through to the alternative. -/
def jsOrString (a : Option String) (b : String) : String :=
  match a with
  | some s => if s = "" then b else s
  | none => b

/-- Chapter label of a source as computed by handleSendMessage:
String(s.chapter || s.chapter_title || "Unknown"). -/
def chapterLabel (s : RAGSource) : String :=
  jsOrString s.chapter (jsOrString s.chapter_title "Unknown")

/-- First-occurrence deduplication, the semantics of
Array.from(new Set(xs)) used by handleSendMessage. -/
def jsSetDedup : List String → List String
  | [] => []
  | a :: as => a :: jsSetDedup (as.filter (fun x => x ≠ a))
termination_by l => l.length
decreasing_by
  simp only [List.length_cons]
  exact Nat.lt_succ_of_le (List.length_filter_le _ _)

/-- Sources attached to the assistant message by handleSendMessage
(Chat components): undefined when the response carries no sources,
otherwise the deduplicated chapter labels in first-occurrence order. -/
def attachedSources (sources : List RAGSource) : Option (List String) :=
  if sources.isEmpty then none
  else some (jsSetDedup (sources.map chapterLabel))

/-- Follow-up suggestions state after a successful response in
handleSendMessage: the list is reset to empty first and only replaced when
the field is present as a well-formed array. -/
def followUpsAfterResponse (resp : RAGResult) : List String :=
  match resp.follow_up_questions with
  | some qs => qs
  | none => []

/-- Whether SuggestedFollowUps renders a panel: the component returns null
exactly when the list is empty (SuggestedFollowUps.tsx lines 16-18). -/
def rendersFollowUpPanel (followUps : List String) : Bool :=
  !followUps.isEmpty

/-- Query parameters of the RAG query call, mirroring RAGQueryParams in
frontend/src/lib/rag-api.ts. -/
structure RAGQueryParams where
  query : String
  course_id : Option Nat
  context_chunks : Option Nat
  use_hybrid_search : Option Bool
  with_citations : Option Bool
deriving DecidableEq

/-- URL search parameters built by queryRAG in rag-api.ts (lines 39-60):
query is always appended, every optional field is appended only when the
caller supplied it. -/
def queryRAGParams (p : RAGQueryParams) : List (String × String) :=
  [("query", p.query)] ++
  (match p.course_id with
    | some c => [("course_id", toString c)]
    | none => []) ++
  (match p.context_chunks with
    | some n => [("context_chunks", toString n)]
    | none => []) ++
  (match p.use_hybrid_search with
    | some b => [("use_hybrid_search", toString b)]
    | none => []) ++
  (match p.with_citations with
    | some b => [("with_citations", toString b)]
    | none => [])

/-- URL search parameters built by searchCourseContent in rag-api.ts
(lines 77-98), which always carries an explicit limit. -/
def searchCourseContentParams (query : String) (courseId : Nat)
    (limit : Nat) : List (String × String) :=
  [("query", query), ("course_id", toString courseId),
    ("limit", toString limit)]

/-- Default value of the limit parameter of searchCourseContent
(limit: number = 5 in rag-api.ts line 80). -/
def defaultSearchLimit : Nat := 5

/-- The searchCourseContent call when the caller omits the limit: the
JavaScript default parameter fills in 5. -/
def searchCourseContentParamsNoLimit (query : String) (courseId : Nat) :
    List (String × String) :=
  searchCourseContentParams query courseId defaultSearchLimit

/-- A browser File as far as the upload validation reads it: name and
byte size. -/
structure FileInfo where
  name : String
  size : Nat
deriving DecidableEq

/-- Allowed upload extensions (FileUpload.tsx line 73). -/
def allowedTypes : List String := [".pdf", ".docx", ".txt"]

/-- Extension computed by isValidFile (FileUpload.tsx line 74):
"." + file.name.split(".").pop()?.toLowerCase(). -/
def fileExtension (f : FileInfo) : String :=
  "." ++ jsToLower (lastDotToken f.name)

/-- Error message set on a rejected extension (FileUpload.tsx line 86). -/
def fileTypeErrorMsg : String :=
  "File type not supported. Allowed: .pdf, .docx, .txt"

/-- Error message set on an oversized file (FileUpload.tsx line 96). -/
def fileSizeErrorMsg : String := "File too large. Maximum size: 50MB"

/-- Outcome of isValidFile: the boolean result together with the error
message it stores via setError on the failing path. -/
structure ValidationResult where
  valid : Bool
  error : Option String
deriving DecidableEq

/-- Embedding of isValidFile (FileUpload.tsx lines 72-104): reject an
extension outside the allow-list, then reject a size above 50MB,
otherwise accept. -/
def validateFile (f : FileInfo) : ValidationResult :=
  if !(allowedTypes.contains (fileExtension f)) then
    { valid := false, error := some fileTypeErrorMsg }
  else if f.size > 50 * 1024 * 1024 then
    { valid := false, error := some fileSizeErrorMsg }
  else { valid := true, error := none }

/-- Boolean result of isValidFile. -/
def isValidFile (f : FileInfo) : Bool :=
  (validateFile f).valid

/-- Selected-file state after handleDrop / handleFileSelect
(FileUpload.tsx lines 45-70): the dropped file replaces the selection only
when it validates; otherwise the selection is untouched. -/
def handleDropSelect (prev : Option FileInfo) (f : FileInfo) :
    Option FileInfo :=
  if isValidFile f then some f else prev

/-- One chat message as held in component state (Chat components). -/
structure ChatMsg where
  id : String
  content : String
  role : String
  timestamp : Nat
deriving DecidableEq

/-- State touched by handleSendMessage in the multi-course chat variant
(the Chat component selecting course_ids), with a log of issued network
requests. -/
structure MultiChatState where
  messages : List ChatMsg
  inputValue : String
  isLoading : Bool
  selectedCourseIds : List Nat
  followUps : List String
  followUpsOpen : Bool
  requests : List (String × List Nat)
deriving DecidableEq

/-- Synchronous part of handleSendMessage in the multi-course chat
variant: guard on blank input or no selected course, then append the user
message, clear the input, raise the loading flag, reset follow-ups and
issue the RAG request. -/
def handleSendMessageMulti (now : Nat) (s : MultiChatState) :
    MultiChatState :=
  if jsTrim s.inputValue = "" ∨ s.selectedCourseIds = [] then s
  else
    { messages := s.messages ++
        [{ id := toString now, content := s.inputValue, role := "user",
           timestamp := now }]
      inputValue := ""
      isLoading := true
      selectedCourseIds := s.selectedCourseIds
      followUps := []
      followUpsOpen := false
      requests := s.requests ++ [(jsTrim s.inputValue, s.selectedCourseIds)] }

/-- State touched by handleSendMessage in the single-course chat variant
(frontend/src/lib/api.ts Chat component, lines 331-344). -/
structure SingleChatState where
  messages : List ChatMsg
  inputValue : String
  isLoading : Bool
  selectedCourseId : Option Nat
  followUps : List String
  followUpsOpen : Bool
  requests : List (String × Option Nat)
deriving DecidableEq

/-- Synchronous part of handleSendMessage in the single-course chat
variant: guard on blank input only. -/
def handleSendMessageSingle (now : Nat) (s : SingleChatState) :
    SingleChatState :=
  if jsTrim s.inputValue = "" then s
  else
    { messages := s.messages ++
        [{ id := toString now, content := s.inputValue, role := "user",
           timestamp := now }]
      inputValue := ""
      isLoading := true
      selectedCourseId := s.selectedCourseId
      followUps := []
      followUpsOpen := false
      requests := s.requests ++ [(jsTrim s.inputValue, s.selectedCourseId)] }

/-
Helper lemmas.
-/

theorem chunkWordsAux_length_le (fuel : Nat) :
    ∀ ws : List String,
      ws.length ≤ (max_chunk_words - overlap_words) * fuel + max_chunk_words →
      ∀ c ∈ chunkWordsAux fuel ws, c.length ≤ max_chunk_words := by
  induction fuel with
  | zero =>
    intro ws h c hc
    simp only [chunkWordsAux, List.mem_singleton] at hc
    subst hc
    simpa using h
  | succ fuel ih =>
    intro ws h c hc
    simp only [chunkWordsAux] at hc
    by_cases hlen : ws.length ≤ max_chunk_words
    · rw [if_pos hlen] at hc
      simp only [List.mem_singleton] at hc
      subst hc
      exact hlen
    · rw [if_neg hlen] at hc
      rcases List.mem_cons.mp hc with rfl | hc2
      · simp
      · refine ih _ ?_ c hc2
        simp only [List.length_drop, max_chunk_words, overlap_words] at *
        omega

theorem chunkWordsAux_head_take (fuel : Nat) (ws : List String) :
    ∀ h ∈ (chunkWordsAux fuel ws).head?,
      h.take overlap_words = ws.take overlap_words := by
  cases fuel with
  | zero =>
    intro h hh
    simp only [chunkWordsAux, List.head?_cons, Option.mem_def,
      Option.some.injEq] at hh
    subst hh
    rfl
  | succ fuel =>
    intro h hh
    simp only [chunkWordsAux] at hh
    split at hh
    · simp only [List.head?_cons, Option.mem_def, Option.some.injEq] at hh
      subst hh
      rfl
    · simp only [List.head?_cons, Option.mem_def, Option.some.injEq] at hh
      subst hh
      simp [List.take_take, max_chunk_words, overlap_words]

theorem chunkWordsAux_chain (fuel : Nat) :
    ∀ ws : List String,
      (chunkWordsAux fuel ws).Chain' (fun a b =>
        overlap_words ≤ a.length ∧
          a.drop (a.length - overlap_words) = b.take overlap_words) := by
  induction fuel with
  | zero => intro ws; simp [chunkWordsAux]
  | succ fuel ih =>
    intro ws
    simp only [chunkWordsAux]
    split
    · simp
    · rename_i hlen
      rw [List.chain'_cons']
      refine ⟨?_, ih _⟩
      intro y hy
      have hl : (ws.take max_chunk_words).length = max_chunk_words := by
        simp only [List.length_take]
        simp only [max_chunk_words] at *
        omega
      have h1 := chunkWordsAux_head_take fuel
        (ws.drop (max_chunk_words - overlap_words)) y hy
      constructor
      · rw [hl]
        simp [max_chunk_words, overlap_words]
      · rw [hl, h1, List.drop_take]
        simp [max_chunk_words, overlap_words]

theorem jsSetDedup_mem (l : List String) (x : String) :
    x ∈ jsSetDedup l ↔ x ∈ l := by
  induction l using jsSetDedup.induct with
  | case1 => simp [jsSetDedup]
  | case2 a as ih =>
    rw [jsSetDedup]
    simp only [List.mem_cons, ih, List.mem_filter]
    constructor
    · rintro (rfl | ⟨h, -⟩)
      · exact Or.inl rfl
      · exact Or.inr h
    · rintro (rfl | h)
      · exact Or.inl rfl
      · by_cases hx : x = a
        · exact Or.inl hx
        · exact Or.inr ⟨h, by simp [hx]⟩

theorem jsSetDedup_nodup (l : List String) : (jsSetDedup l).Nodup := by
  induction l using jsSetDedup.induct with
  | case1 => simp [jsSetDedup]
  | case2 a as ih =>
    rw [jsSetDedup]
    refine List.nodup_cons.mpr ⟨?_, ih⟩
    intro hmem
    rw [jsSetDedup_mem] at hmem
    simp [List.mem_filter] at hmem

theorem dot_append_inj (a b : String) : ("." ++ a = "." ++ b) ↔ a = b := by
  constructor
  · intro h
    have h2 := congrArg String.data h
    simp only [String.data_append] at h2
    exact String.ext (by simpa using h2)
  · intro h
    rw [h]

theorem mem_insertByScore (e x : IndexEntry) (l : List IndexEntry) :
    x ∈ insertByScore e l ↔ x = e ∨ x ∈ l := by
  induction l with
  | nil => simp [insertByScore]
  | cons a as ih =>
    simp only [insertByScore]
    split
    · simp
    · simp only [List.mem_cons, ih]
      tauto

theorem mem_sortByScoreDesc (x : IndexEntry) (l : List IndexEntry) :
    x ∈ sortByScoreDesc l ↔ x ∈ l := by
  induction l with
  | nil => simp [sortByScoreDesc]
  | cons a as ih =>
    simp only [sortByScoreDesc, mem_insertByScore, ih, List.mem_cons]

/-
Claim theorems.
-/

/-- C1: every chunk produced by the Chunker has word count at most the
configured max_chunk_words (1000), and every pair of consecutive chunks of
a chapter shares at least the configured overlap_words (200) words: the
final 200 words of each non-final chunk are exactly the first 200 words of
its successor. -/
theorem chunker_word_bound_and_overlap (ws : List String) :
    (∀ c ∈ chunkWords ws, c.length ≤ max_chunk_words) ∧
    (chunkWords ws).Chain' (fun a b =>
      overlap_words ≤ a.length ∧
        a.drop (a.length - overlap_words) = b.take overlap_words) := by
  constructor
  · refine chunkWordsAux_length_le ws.length ws ?_
    simp only [max_chunk_words, overlap_words]
    omega
  · exact chunkWordsAux_chain ws.length ws

/-- C1 witness: the chunker applied to a concrete two-word chapter. -/
theorem chunker_word_bound_and_overlap_witness :
    (["alpha", "beta"] ∈ chunkWords ["alpha", "beta"]) ∧
    (["alpha", "beta"] : List String).length ≤ max_chunk_words :=
  ⟨by decide,
    (chunker_word_bound_and_overlap ["alpha", "beta"]).1 ["alpha", "beta"]
      (by decide)⟩

/-- C2: ingestion is a pure deterministic function of the document, so
re-ingesting the same document yields identical chunk id lists and chapter
titles, and the id stored at chapter ordinal i, chunk ordinal j is exactly
chunkId (document id) i j. -/
theorem ingestion_idempotent_ids (d : Document) :
    (ingestChunkIds d = ingestChunkIds d ∧
      ingestChapterTitles d = ingestChapterTitles d) ∧
    (∀ d2 : Document, d.id = d2.id → d.name = d2.name → d.lines = d2.lines →
      ingestChunkIds d = ingestChunkIds d2 ∧
        ingestChapterTitles d = ingestChapterTitles d2) ∧
    (∀ (i j : Nat) (ch : String × List (Nat × List String))
      (c : Nat × List String),
      (ingest d)[i]? = some ch → ch.2[j]? = some c →
        c.1 = chunkId d.id i j) := by
  refine ⟨⟨rfl, rfl⟩, ?_, ?_⟩
  · intro d2 h1 h2 h3
    cases d
    cases d2
    simp only at h1 h2 h3
    subst h1
    subst h2
    subst h3
    exact ⟨rfl, rfl⟩
  · intro i j ch c hch hc
    obtain ⟨hi, rfl⟩ := List.getElem?_eq_some_iff.mp hch
    obtain ⟨hj, rfl⟩ := List.getElem?_eq_some_iff.mp hc
    simp only [ingest, List.getElem_map, List.getElem_enum]

/-- C2 witness: ingesting a concrete one-chapter document places
chunkId 7 0 0 on the first chunk of the first chapter. -/
theorem ingestion_idempotent_ids_witness :
    ((ingest ⟨7, "notes", ["hello world"]⟩)[0]? =
      some ("notes", [(chunkId 7 0 0, ["hello", "world"])])) ∧
    (("notes", [(chunkId 7 0 0, ["hello", "world"])]).2[0]? =
      some (chunkId 7 0 0, ["hello", "world"])) ∧
    (chunkId 7 0 0, ["hello", "world"]).1 = chunkId 7 0 0 :=
  ⟨by decide, by decide,
    (ingestion_idempotent_ids ⟨7, "notes", ["hello world"]⟩).2.2 0 0
      ("notes", [(chunkId 7 0 0, ["hello", "world"])])
      (chunkId 7 0 0, ["hello", "world"]) (by decide) (by decide)⟩

/-- C3: a search issued with a course filter only ever returns index
entries of that course; the filter is applied before ranking, so no entry
outside the filter appears in the result regardless of its score. -/
theorem search_course_filter_hard (entries : List IndexEntry) (k X : Nat)
    (e : IndexEntry) (he : e ∈ searchIndex entries k (some X)) :
    e.courseId = X := by
  have h1 := List.mem_of_mem_take he
  rw [mem_sortByScoreDesc] at h1
  have h2 := (List.mem_filter.mp h1).2
  simpa [matchesFilter] using h2

/-- C3 witness: with a course-3 filter over a two-course index holding a
higher-scored course-4 entry, the returned course-3 entry satisfies the
filter. -/
theorem search_course_filter_hard_witness :
    (⟨1, 3, 10, "ch1", 5⟩ : IndexEntry) ∈
      searchIndex [⟨1, 3, 10, "ch1", 5⟩, ⟨2, 4, 11, "ch2", 99⟩] 5 (some 3) ∧
    (⟨1, 3, 10, "ch1", 5⟩ : IndexEntry).courseId = 3 :=
  ⟨by decide,
    search_course_filter_hard [⟨1, 3, 10, "ch1", 5⟩, ⟨2, 4, 11, "ch2", 99⟩]
      5 3 ⟨1, 3, 10, "ch1", 5⟩ (by decide)⟩

/-- C4: when retrieval finds zero candidates the orchestrator returns the
deterministic no-relevant-content answer with source_count 0 and no error,
and the completion collaborator is not invoked. -/
theorem query_no_candidates_short_circuit (q : String)
    (complete : String → String)
    (parseTrailer : String → Option (List String)) :
    (answerQuery q [] complete parseTrailer).2 = false ∧
    (answerQuery q [] complete parseTrailer).1.source_count = 0 ∧
    (answerQuery q [] complete parseTrailer).1.answer =
      noRelevantContentAnswer ∧
    (answerQuery q [] complete parseTrailer).1.error = none :=
  ⟨rfl, rfl, rfl, rfl⟩

/-- C5: the ingestion job status ranges over QUEUED, PROCESSING, SUCCESS,
FAILURE with transitions QUEUED to PROCESSING to SUCCESS or FAILURE,
SUCCESS and FAILURE are terminal, and the polling client of FileUpload.tsx
stops polling exactly when a polled status is SUCCESS or FAILURE,
surfacing the result on a terminal status and the error message on
FAILURE. -/
theorem job_state_machine_and_poll_stop :
    (∀ s : JobStatus, ¬ JobStep JobStatus.SUCCESS s) ∧
    (∀ s : JobStatus, ¬ JobStep JobStatus.FAILURE s) ∧
    (∀ s t : JobStatus, JobStep s t →
      (s = JobStatus.QUEUED ∧ t = JobStatus.PROCESSING) ∨
      (s = JobStatus.PROCESSING ∧
        (t = JobStatus.SUCCESS ∨ t = JobStatus.FAILURE))) ∧
    (∀ (u : UploadComponentState) (st : FileUploadStatusResponse),
      u.polling = true →
      (((pollTick u st).polling = false) ↔
        (st.status = "SUCCESS" ∨ st.status = "FAILURE"))) ∧
    (∀ (u : UploadComponentState) (st : FileUploadStatusResponse),
      st.status = "SUCCESS" →
      (pollTick u st).uploadResult = st.result ∧
        (pollTick u st).isUploading = false) ∧
    (∀ (u : UploadComponentState) (st : FileUploadStatusResponse),
      st.status = "FAILURE" →
      (pollTick u st).error = "Upload failed" ∧
        (pollTick u st).uploadResult = st.result) := by
  refine ⟨?_, ?_, ?_, ?_, ?_, ?_⟩
  · intro s h
    cases h
  · intro s h
    cases h
  · intro s t h
    cases h
    · exact Or.inl ⟨rfl, rfl⟩
    · exact Or.inr ⟨rfl, Or.inl rfl⟩
    · exact Or.inr ⟨rfl, Or.inr rfl⟩
  · intro u st hu
    by_cases h1 : st.status = "SUCCESS"
    · simp [pollTick, h1]
    · by_cases h2 : st.status = "FAILURE"
      · simp [pollTick, h1, h2]
      · simp [pollTick, h1, h2, hu]
  · intro u st h1
    constructor
    · simp [pollTick, h1]
    · simp [pollTick, h1]
  · intro u st h2
    constructor
    · simp [pollTick, h2]
    · simp [pollTick, h2]

/-- C5 witness: a polling state observing a SUCCESS status stops polling;
one observing FAILURE records the error message. -/
theorem job_state_machine_and_poll_stop_witness :
    (pollTick ⟨none, true, true, none, ""⟩
      ⟨"job1", "SUCCESS", [], none⟩).polling = false ∧
    (pollTick ⟨none, true, true, none, ""⟩
      ⟨"job1", "FAILURE", [], none⟩).error = "Upload failed" :=
  ⟨(job_state_machine_and_poll_stop.2.2.2.1 ⟨none, true, true, none, ""⟩
      ⟨"job1", "SUCCESS", [], none⟩ rfl).mpr (Or.inl rfl),
    (job_state_machine_and_poll_stop.2.2.2.2.2 ⟨none, true, true, none, ""⟩
      ⟨"job1", "FAILURE", [], none⟩ rfl).1⟩

/-- C6: when a query response carries a non-empty sources array, the
chapter labels attached to the assistant message are deduplicated: the
attached list has no duplicate label and contains exactly the labels of
the returned sources. -/
theorem chat_sources_dedup_by_chapter (sources : List RAGSource)
    (h : sources ≠ []) :
    ∃ labels, attachedSources sources = some labels ∧ labels.Nodup ∧
      (∀ x, x ∈ labels ↔ x ∈ sources.map chapterLabel) := by
  cases sources with
  | nil => exact absurd rfl h
  | cons a as =>
    exact ⟨jsSetDedup ((a :: as).map chapterLabel), rfl,
      jsSetDedup_nodup _, fun x => jsSetDedup_mem _ x⟩

/-- C6 witness: two sources sharing the chapter label Ch1 yield a
deduplicated attached list. -/
theorem chat_sources_dedup_by_chapter_witness :
    ([⟨some "Ch1", none, none, none, none, none⟩,
        ⟨some "Ch1", none, none, none, none, none⟩] : List RAGSource) ≠ [] ∧
    ∃ labels,
      attachedSources
        [⟨some "Ch1", none, none, none, none, none⟩,
          ⟨some "Ch1", none, none, none, none, none⟩] = some labels ∧
      labels.Nodup ∧
      (∀ x, x ∈ labels ↔ x ∈
        ([⟨some "Ch1", none, none, none, none, none⟩,
            ⟨some "Ch1", none, none, none, none, none⟩] :
          List RAGSource).map chapterLabel) :=
  ⟨by decide,
    chat_sources_dedup_by_chapter
      [⟨some "Ch1", none, none, none, none, none⟩,
        ⟨some "Ch1", none, none, none, none, none⟩] (by decide)⟩

/-- C7: an absent or malformed follow_up_questions field leaves the
follow-up list empty and no panel is rendered; the spec-modelled trailer
extraction yields either no follow-ups or between 2 and 4 of them. -/
theorem follow_ups_default_and_range :
    (∀ resp : RAGResult, resp.follow_up_questions = none →
      followUpsAfterResponse resp = [] ∧
        rendersFollowUpPanel (followUpsAfterResponse resp) = false) ∧
    (∀ trailer : Option (List String),
      extractFollowUps trailer = [] ∨
        (2 ≤ (extractFollowUps trailer).length ∧
          (extractFollowUps trailer).length ≤ 4)) := by
  constructor
  · intro resp h
    constructor
    · simp [followUpsAfterResponse, h]
    · simp [followUpsAfterResponse, rendersFollowUpPanel, h]
  · intro trailer
    match trailer with
    | none => exact Or.inl rfl
    | some qs =>
      simp only [extractFollowUps]
      split
      · rename_i hq
        exact Or.inr hq
      · exact Or.inl rfl

/-- C7 witness: a concrete response without the follow_up_questions field
keeps the suggestions empty and renders no panel. -/
theorem follow_ups_default_and_range_witness :
    followUpsAfterResponse ⟨"q", "a", [], 0, none, none⟩ = [] ∧
    rendersFollowUpPanel
      (followUpsAfterResponse ⟨"q", "a", [], 0, none, none⟩) = false :=
  follow_ups_default_and_range.1 ⟨"q", "a", [], 0, none, none⟩ rfl

/-- C8 counterexample: a queryRAG call without a caller-supplied
context_chunks issues a request containing only the query parameter, so no
top_k / limit / context_chunks entry with value 5 is sent at all. -/
theorem query_params_counterexample :
    queryRAGParams ⟨"q", none, none, none, none⟩ = [("query", "q")] ∧
    ("context_chunks", "5") ∉ queryRAGParams ⟨"q", none, none, none, none⟩ ∧
    ("top_k", "5") ∉ queryRAGParams ⟨"q", none, none, none, none⟩ ∧
    ("limit", "5") ∉ queryRAGParams ⟨"q", none, none, none, none⟩ :=
  ⟨rfl, by decide, by decide, by decide⟩

/-- C8 amended: a content search without a caller-supplied limit is issued
with the default limit 5; a RAG query without a caller-supplied
context_chunks omits the parameter entirely, deferring to the server-side
default. -/
theorem default_limit_amended :
    (∀ (q : String) (c : Nat),
      ("limit", "5") ∈ searchCourseContentParamsNoLimit q c) ∧
    (∀ p : RAGQueryParams, p.context_chunks = none →
      ∀ v, ("context_chunks", v) ∉ queryRAGParams p) := by
  constructor
  · intro q c
    have h5 : toString defaultSearchLimit = "5" := by decide
    simp only [searchCourseContentParamsNoLimit, searchCourseContentParams]
    rw [h5]
    simp
  · rintro ⟨pq, cid, cc, hyb, wc⟩ hp v hv
    have h2 : cc = none := hp
    subst h2
    cases cid <;> cases hyb <;> cases wc <;>
      simp [queryRAGParams] at hv

/-- C8 amended witness: concrete instances of both halves. -/
theorem default_limit_amended_witness :
    ("limit", "5") ∈ searchCourseContentParamsNoLimit "q" 3 ∧
    ("context_chunks", "5") ∉
      queryRAGParams ⟨"q2", some 1, none, some true, none⟩ :=
  ⟨default_limit_amended.1 "q" 3,
    default_limit_amended.2 ⟨"q2", some 1, none, some true, none⟩ rfl "5"⟩

/-- C9: the upload pre-validation accepts a file exactly when the
lowercased final dot-separated token of its name is pdf, docx or txt and
its size is at most 52428800 bytes; on rejection an error message is
stored and the selection is untouched; a dotless file named exactly pdf is
accepted because the final token of a name without a dot is the whole
name. -/
theorem is_valid_file_characterization (f : FileInfo) :
    (isValidFile f = true ↔
      (jsToLower (lastDotToken f.name) ∈ ["pdf", "docx", "txt"] ∧
        f.size ≤ 52428800)) ∧
    (isValidFile f = false →
      (validateFile f).error ≠ none ∧
        ∀ prev : Option FileInfo, handleDropSelect prev f = prev) ∧
    isValidFile { name := "pdf", size := 100 } = true := by
  have hc : allowedTypes.contains (fileExtension f) = true ↔
      jsToLower (lastDotToken f.name) ∈ ["pdf", "docx", "txt"] := by
    simp only [List.contains, allowedTypes, fileExtension, List.elem_eq_mem,
      decide_eq_true_eq, List.mem_cons, List.mem_singleton,
      List.not_mem_nil, or_false]
    constructor
    · rintro (h | h | h)
      · exact Or.inl ((dot_append_inj _ _).mp h)
      · exact Or.inr (Or.inl ((dot_append_inj _ _).mp h))
      · exact Or.inr (Or.inr ((dot_append_inj _ _).mp h))
    · rintro (h | h | h)
      · exact Or.inl (by rw [h]; rfl)
      · exact Or.inr (Or.inl (by rw [h]; rfl))
      · exact Or.inr (Or.inr (by rw [h]; rfl))
  refine ⟨?_, ?_, by decide⟩
  · by_cases hm : jsToLower (lastDotToken f.name) ∈ ["pdf", "docx", "txt"]
    · unfold isValidFile validateFile
      rw [hc.mpr hm]
      simp only [Bool.not_true, Bool.false_eq_true, if_false]
      constructor
      · intro h
        split at h
        · simp at h
        · rename_i hgt
          exact ⟨hm, by omega⟩
      · rintro ⟨-, hle⟩
        rw [if_neg (by omega)]
    · have hfalse : allowedTypes.contains (fileExtension f) = false := by
        cases hb : allowedTypes.contains (fileExtension f)
        · rfl
        · exact absurd (hc.mp hb) hm
      have hvf : isValidFile f = false := by
        unfold isValidFile validateFile
        rw [hfalse]
        rfl
      rw [hvf]
      constructor
      · intro h
        simp at h
      · rintro ⟨hmem, -⟩
        exact absurd hmem hm
  · intro hinv
    constructor
    · unfold validateFile
      split
      · simp
      · split
        · simp
        · exfalso
          rename_i hg1 hg2
          unfold isValidFile validateFile at hinv
          rw [if_neg hg1, if_neg hg2] at hinv
          simp at hinv
    · intro prev
      unfold handleDropSelect
      simp [hinv]

/-- C9 witness: a rejected file keeps the existing selection and stores an
error, and the accepting side of the characterization holds on a dotless
name. -/
theorem is_valid_file_characterization_witness :
    isValidFile ⟨"prog.exe", 10⟩ = false ∧
    (validateFile ⟨"prog.exe", 10⟩).error ≠ none ∧
    handleDropSelect (some ⟨"kept.pdf", 1⟩) ⟨"prog.exe", 10⟩ =
      some ⟨"kept.pdf", 1⟩ :=
  ⟨by decide,
    ((is_valid_file_characterization ⟨"prog.exe", 10⟩).2.1 (by decide)).1,
    ((is_valid_file_characterization ⟨"prog.exe", 10⟩).2.1 (by decide)).2
      (some ⟨"kept.pdf", 1⟩)⟩

/-- C10: handleSendMessage is a no-op when the input is empty or
whitespace-only, and in the multi-course variant also when no course is
selected: the whole component state, including the message list, the
request log and the loading flag, is unchanged. -/
theorem send_message_noop_on_blank :
    (∀ (now : Nat) (s : MultiChatState),
      jsTrim s.inputValue = "" ∨ s.selectedCourseIds = [] →
        handleSendMessageMulti now s = s) ∧
    (∀ (now : Nat) (s : SingleChatState),
      jsTrim s.inputValue = "" → handleSendMessageSingle now s = s) := by
  constructor
  · intro now s h
    unfold handleSendMessageMulti
    rw [if_pos h]
  · intro now s h
    unfold handleSendMessageSingle
    rw [if_pos h]

/-- C10 witness: a whitespace-only input and an empty course selection
each leave concrete chat states unchanged. -/
theorem send_message_noop_on_blank_witness :
    handleSendMessageMulti 1
      ⟨[], "  ", false, [3], [], false, []⟩ =
      ⟨[], "  ", false, [3], [], false, []⟩ ∧
    handleSendMessageMulti 2
      ⟨[], "question", false, [], [], false, []⟩ =
      ⟨[], "question", false, [], [], false, []⟩ ∧
    handleSendMessageSingle 3
      ⟨[], "", false, some 4, [], false, []⟩ =
      ⟨[], "", false, some 4, [], false, []⟩ :=
  ⟨send_message_noop_on_blank.1 1 ⟨[], "  ", false, [3], [], false, []⟩
      (Or.inl (by decide)),
    send_message_noop_on_blank.1 2
      ⟨[], "question", false, [], [], false, []⟩ (Or.inr rfl),
    send_message_noop_on_blank.2 3 ⟨[], "", false, some 4, [], false, []⟩
      (by decide)⟩
